import Mathlib

/-!
Shallow embedding of the `/ask` streaming handler of this repository
(`src/src/main.py`, the traced variant; `src/src/example_wrapper.py` is the
untraced variant of the same loop).

The handler `ask.generate` is an async generator that:
  * builds a `RunTree` trace and calls `rt.post()` (outside the `try`),
  * inside a `try`, opens the upstream stream
    (`genai_client.aio.models.generate_content_stream`) and iterates chunks:
      - on the first chunk, `rt.add_event({"name": "new_token"})`,
      - if `chunk.usage_metadata` is truthy, overwrites
        `input_tokens`/`output_tokens` with its
        `prompt_token_count`/`candidates_token_count`,
      - appends `chunk.text if chunk.text else ""` to `full_content` and
        yields `f"data: {text}\n\n"`,
  * after the loop yields `data: [DONE]\n\n`, then `rt.end(outputs, usage)`
    and `rt.patch()` (still inside the `try`),
  * on any exception caught by the `except`: `print(e)`, `rt.end(error=str(e))`,
    `rt.patch()`, and yields `data: [ERROR]\n\n`.

We model one invocation as a pure function of the question, the upstream
behaviour (a list of chunks, optionally followed by a raised error), and a
trace-recorder environment saying which trace calls raise.  The run result
records the yielded outbound events, the attempted trace calls in order, the
prompt passed to the upstream client (if it was invoked), the final values of
the generator's accumulators, and any exception escaping the generator.
-/

namespace AskApp

/-- `chunk.usage_metadata`: prompt and candidates token counts
(`src/src/main.py` lines 116-118). -/
structure Usage where
  prompt_token_count : Nat
  candidates_token_count : Nat
deriving DecidableEq

/-- One upstream chunk: optional text and optional usage metadata. -/
structure Chunk where
  text : Option String
  usage_metadata : Option Usage
deriving DecidableEq

/-- `chunk.text if chunk.text else ""` — Python truthiness: `None` and the
empty string are falsy (`src/src/main.py` line 120). -/
def chunkText (c : Chunk) : String :=
  match c.text with
  | some t => if t = "" then "" else t
  | none => ""

/-- The three kinds of frames the generator yields
(`src/src/main.py` lines 123, 125, 144). -/
inductive OutboundEvent where
  | token (text : String)
  | done
  | error
deriving DecidableEq

/-- Rendering of an outbound event as the exact SSE frame string the
generator yields: `f"data: {text}\n\n"`, `"data: [DONE]\n\n"`,
`"data: [ERROR]\n\n"`. -/
def render : OutboundEvent → String
  | .token t => "data: " ++ t ++ "\n\n"
  | .done => "data: [DONE]\n\n"
  | .error => "data: [ERROR]\n\n"

/-- Trace-recorder calls the handler attempts, in order:
`rt.post()`, `rt.add_event({"name": ...})`, `rt.end(outputs, usage)` on
success, `rt.end(error=...)` on failure, `rt.patch()`. -/
inductive TraceCall where
  | post
  | addEvent (name : String)
  | endSuccess (output : String) (input_tokens output_tokens total_tokens : Nat)
  | endError (msg : String)
  | patch
deriving DecidableEq

/-- Which trace-recorder calls raise in a given execution.  Each flag makes
the corresponding call site raise when reached. -/
structure TraceEnv where
  postFails : Bool
  addEventFails : Bool
  endSuccessFails : Bool
  patchSuccessFails : Bool
  endErrorFails : Bool
  patchErrorFails : Bool
deriving DecidableEq

/-- The nominal environment: no trace-recorder call raises. -/
def TraceEnv.noFail : TraceEnv :=
  { postFails := false, addEventFails := false, endSuccessFails := false,
    patchSuccessFails := false, endErrorFails := false, patchErrorFails := false }

/-- Upstream behaviour: the chunks the stream produces, and `failure = some e`
when the iterator raises `e` after producing them (a raise while opening the
stream is `chunks = []`, `failure = some e`). -/
structure Upstream where
  chunks : List Chunk
  failure : Option String
deriving DecidableEq

/-- Observable outcome of one run of `ask.generate`:
the yielded frames (as structured events), the attempted trace calls, the
prompt the upstream client was invoked with (`none` if it was never invoked),
the final values of `full_content` / `input_tokens` / `output_tokens`, and
the exception escaping the generator, if any. -/
structure RunResult where
  events : List OutboundEvent
  trace : List TraceCall
  upstreamPrompt : Option String
  full_content : String
  input_tokens : Nat
  output_tokens : Nat
  raised : Option String
deriving DecidableEq

/-- The token-total update of one chunk (`src/src/main.py` lines 116-118):
a usage-bearing chunk overwrites both counters, others leave them. -/
def updTokens (acc : Nat × Nat) (c : Chunk) : Nat × Nat :=
  match c.usage_metadata with
  | some u => (u.prompt_token_count, u.candidates_token_count)
  | none => acc

/-- The `except Exception` handler (`src/src/main.py` lines 140-144):
`rt.end(error=str(e))`, `rt.patch()`, `yield "data: [ERROR]\n\n"`.  If one of
the two trace calls raises here, the new exception escapes the generator
before the `[ERROR]` frame is yielded. -/
def errorPath (env : TraceEnv) (q : String) (events : List OutboundEvent)
    (trace : List TraceCall) (full : String) (toks : Nat × Nat)
    (msg : String) : RunResult :=
  let trace := trace ++ [TraceCall.endError msg]
  if env.endErrorFails then
    { events := events, trace := trace, upstreamPrompt := some q,
      full_content := full, input_tokens := toks.1, output_tokens := toks.2,
      raised := some "trace_end_raised_in_except_block" }
  else
    let trace := trace ++ [TraceCall.patch]
    if env.patchErrorFails then
      { events := events, trace := trace, upstreamPrompt := some q,
        full_content := full, input_tokens := toks.1, output_tokens := toks.2,
        raised := some "trace_patch_raised_in_except_block" }
    else
      { events := events ++ [OutboundEvent.error], trace := trace,
        upstreamPrompt := some q, full_content := full,
        input_tokens := toks.1, output_tokens := toks.2, raised := none }

/-- The `try` body from the `async for` loop on
(`src/src/main.py` lines 105-138), as a recursion over the remaining chunks.
Accumulators are the events yielded so far, the trace calls so far,
`full_content`, the token counters, and whether `first_token` is set.
When the chunk list is exhausted, an upstream `failure` raises into the
`except` handler; otherwise the success epilogue runs: `yield [DONE]`,
`rt.end(outputs=full_content, usage)`, `rt.patch()` — each of the two trace
calls still inside the `try`, so their failure reaches the `except` handler
after `[DONE]` was already yielded. -/
def streamLoop (env : TraceEnv) (q : String) (failure : Option String) :
    List Chunk → List OutboundEvent → List TraceCall → String →
    Nat × Nat → Bool → RunResult
  | [], events, trace, full, toks, _ =>
    match failure with
    | some msg => errorPath env q events trace full toks msg
    | none =>
      let events := events ++ [OutboundEvent.done]
      let trace := trace ++
        [TraceCall.endSuccess full toks.1 toks.2 (toks.1 + toks.2)]
      if env.endSuccessFails then
        errorPath env q events trace full toks "trace_end_raised_on_success"
      else
        let trace := trace ++ [TraceCall.patch]
        if env.patchSuccessFails then
          errorPath env q events trace full toks "trace_patch_raised_on_success"
        else
          { events := events, trace := trace, upstreamPrompt := some q,
            full_content := full, input_tokens := toks.1,
            output_tokens := toks.2, raised := none }
  | c :: rest, events, trace, full, toks, firstSeen =>
    let trace2 := if firstSeen then trace
      else trace ++ [TraceCall.addEvent "new_token"]
    if !firstSeen && env.addEventFails then
      errorPath env q events trace2 full toks "trace_add_event_raised"
    else
      let toks2 := updTokens toks c
      let t := chunkText c
      streamLoop env q failure rest (events ++ [OutboundEvent.token t]) trace2
        (full ++ t) toks2 true

/-- One invocation of `ask.generate` (`src/src/main.py` lines 70-144).
`rt.post()` (line 98) runs before the `try`: if it raises, the exception
escapes the generator before the upstream client is invoked and before any
frame is yielded. -/
def generate (q : String) (up : Upstream) (env : TraceEnv) : RunResult :=
  let trace := [TraceCall.post]
  if env.postFails then
    { events := [], trace := trace, upstreamPrompt := none,
      full_content := "", input_tokens := 0, output_tokens := 0,
      raised := some "trace_post_raised" }
  else
    streamLoop env q up.failure up.chunks [] trace "" (0, 0) false

/-- The inbound request body for `POST /ask`: the `question` field is either
absent or a string. -/
inductive ReqBody where
  | missingQuestion
  | withQuestion (question : String)
deriving DecidableEq

/-- Pydantic validation of the `Question` model (`src/src/main.py` lines
15-18): the field `question : str` is required, so an absent field is a
validation error, while any string value — including the empty string — is
accepted (no `min_length` or other constraint is declared). -/
def validateQuestion : ReqBody → Option String
  | .missingQuestion => none
  | .withQuestion q => some q

/-- The `/ask` route: request parsing happens before the handler body runs;
a validation failure produces an HTTP error response and the streaming
generator is never started. -/
def handleAsk (b : ReqBody) (up : Upstream) (env : TraceEnv) :
    Except String RunResult :=
  match validateQuestion b with
  | none => Except.error "validation_error"
  | some q => Except.ok (generate q up env)

/-- The prompt the upstream client was invoked with during a request, if it
was invoked at all. -/
def upstreamInvokedWith (x : Except String RunResult) : Option String :=
  match x with
  | .ok r => r.upstreamPrompt
  | .error _ => none

/-- A terminal outbound event: `done` or `error`. -/
def isTerminal : OutboundEvent → Bool
  | .token _ => false
  | .done => true
  | .error => true

/-- The `new_token` first-chunk marker among trace calls. -/
def isFirstTokenMarker : TraceCall → Bool
  | .addEvent n => n == "new_token"
  | _ => false

/-- Usage totals carried by the last usage-bearing chunk (each usage-bearing
chunk overwrites the running totals; `(0, 0)` if none carries usage). -/
def lastUsage (chunks : List Chunk) : Nat × Nat :=
  chunks.foldl updTokens (0, 0)

/-- The arguments of the first success finalization (`rt.end(outputs, usage)`)
in a trace: output text, input, output and total token counts. -/
def finalizedSuccess : List TraceCall → Option (String × Nat × Nat × Nat)
  | [] => none
  | TraceCall.endSuccess o i u tot :: _ => some (o, i, u, tot)
  | _ :: rest => finalizedSuccess rest

/-- Concatenation of the text fragments of a chunk list, as accumulated in
`full_content`. -/
def joinTexts (chunks : List Chunk) : String :=
  String.join (chunks.map chunkText)

/-- `full_content` update over a chunk list. -/
def accText (full : String) (chunks : List Chunk) : String :=
  chunks.foldl (fun s c => s ++ chunkText c) full

/-- The first-token marker emitted by a pass over `chunks` starting with
`first_token` state `fs`. -/
def markerOf (fs : Bool) (chunks : List Chunk) : List TraceCall :=
  if fs || chunks.isEmpty then [] else [TraceCall.addEvent "new_token"]

/-- An execution in which the success-path `rt.end` call raises. -/
def envEndSuccessFails : TraceEnv := { TraceEnv.noFail with endSuccessFails := true }

/-- An execution in which the `rt.end(error=...)` call in the `except` block
raises. -/
def envEndErrorFails : TraceEnv := { TraceEnv.noFail with endErrorFails := true }

/-- An execution in which `rt.post()` raises. -/
def envPostFails : TraceEnv := { TraceEnv.noFail with postFails := true }

/-- An execution in which every trace call inside the `try` block raises
(first-token marker, success-path end and patch), while `rt.post()` and the
`except`-block calls succeed. -/
def envTryBlockFails : TraceEnv :=
  { postFails := false, addEventFails := true, endSuccessFails := true,
    patchSuccessFails := true, endErrorFails := false,
    patchErrorFails := false }

@[simp] theorem noFail_postFails : TraceEnv.noFail.postFails = false := rfl

@[simp] theorem noFail_addEventFails : TraceEnv.noFail.addEventFails = false := rfl

@[simp] theorem noFail_endSuccessFails : TraceEnv.noFail.endSuccessFails = false := rfl

@[simp] theorem noFail_patchSuccessFails : TraceEnv.noFail.patchSuccessFails = false := rfl

@[simp] theorem noFail_endErrorFails : TraceEnv.noFail.endErrorFails = false := rfl

@[simp] theorem noFail_patchErrorFails : TraceEnv.noFail.patchErrorFails = false := rfl

/-- Closed form of the streaming loop when no trace call fails and the
upstream completes without raising. -/
theorem streamLoop_noFail_ok (q : String) :
    ∀ (chunks : List Chunk) (events : List OutboundEvent)
      (trace : List TraceCall) (full : String) (toks : Nat × Nat) (fs : Bool),
    streamLoop TraceEnv.noFail q none chunks events trace full toks fs =
      { events := events ++
          chunks.map (fun c => OutboundEvent.token (chunkText c)) ++
          [OutboundEvent.done],
        trace := trace ++ markerOf fs chunks ++
          [TraceCall.endSuccess (accText full chunks)
            (chunks.foldl updTokens toks).1 (chunks.foldl updTokens toks).2
            ((chunks.foldl updTokens toks).1 + (chunks.foldl updTokens toks).2),
           TraceCall.patch],
        upstreamPrompt := some q,
        full_content := accText full chunks,
        input_tokens := (chunks.foldl updTokens toks).1,
        output_tokens := (chunks.foldl updTokens toks).2,
        raised := none } := by
  intro chunks
  induction chunks with
  | nil =>
    intro events trace full toks fs
    simp [streamLoop, markerOf, accText]
  | cons c rest ih =>
    intro events trace full toks fs
    rw [streamLoop]
    simp only [noFail_addEventFails, Bool.and_false, Bool.false_eq_true,
      if_false]
    rw [ih]
    cases fs <;>
      simp [markerOf, accText, List.append_assoc, List.isEmpty_cons]

/-- Closed form of the streaming loop when no trace call fails and the
upstream raises `msg` after its chunks. -/
theorem streamLoop_noFail_err (q msg : String) :
    ∀ (chunks : List Chunk) (events : List OutboundEvent)
      (trace : List TraceCall) (full : String) (toks : Nat × Nat) (fs : Bool),
    streamLoop TraceEnv.noFail q (some msg) chunks events trace full toks fs =
      { events := events ++
          chunks.map (fun c => OutboundEvent.token (chunkText c)) ++
          [OutboundEvent.error],
        trace := trace ++ markerOf fs chunks ++
          [TraceCall.endError msg, TraceCall.patch],
        upstreamPrompt := some q,
        full_content := accText full chunks,
        input_tokens := (chunks.foldl updTokens toks).1,
        output_tokens := (chunks.foldl updTokens toks).2,
        raised := none } := by
  intro chunks
  induction chunks with
  | nil =>
    intro events trace full toks fs
    simp [streamLoop, markerOf, accText, errorPath]
  | cons c rest ih =>
    intro events trace full toks fs
    rw [streamLoop]
    simp only [noFail_addEventFails, Bool.and_false, Bool.false_eq_true,
      if_false]
    rw [ih]
    cases fs <;>
      simp [markerOf, accText, List.append_assoc, List.isEmpty_cons]

theorem accText_empty (chunks : List Chunk) :
    accText "" chunks = joinTexts chunks := by
  simp [accText, joinTexts, String.join, List.foldl_map]

/-- Closed form of one invocation with no trace failure and a cleanly
completing upstream. -/
theorem generate_noFail_ok (q : String) (chunks : List Chunk) :
    generate q ⟨chunks, none⟩ TraceEnv.noFail =
      { events := chunks.map (fun c => OutboundEvent.token (chunkText c)) ++
          [OutboundEvent.done],
        trace := [TraceCall.post] ++ markerOf false chunks ++
          [TraceCall.endSuccess (joinTexts chunks) (lastUsage chunks).1
            (lastUsage chunks).2
            ((lastUsage chunks).1 + (lastUsage chunks).2),
           TraceCall.patch],
        upstreamPrompt := some q,
        full_content := joinTexts chunks,
        input_tokens := (lastUsage chunks).1,
        output_tokens := (lastUsage chunks).2,
        raised := none } := by
  rw [generate]
  simp only [noFail_postFails, Bool.false_eq_true, if_false]
  rw [streamLoop_noFail_ok]
  simp [accText_empty, lastUsage]

/-- Closed form of one invocation with no trace failure and an upstream
raising `msg` after its chunks. -/
theorem generate_noFail_err (q msg : String) (chunks : List Chunk) :
    generate q ⟨chunks, some msg⟩ TraceEnv.noFail =
      { events := chunks.map (fun c => OutboundEvent.token (chunkText c)) ++
          [OutboundEvent.error],
        trace := [TraceCall.post] ++ markerOf false chunks ++
          [TraceCall.endError msg, TraceCall.patch],
        upstreamPrompt := some q,
        full_content := joinTexts chunks,
        input_tokens := (lastUsage chunks).1,
        output_tokens := (lastUsage chunks).2,
        raised := none } := by
  rw [generate]
  simp only [noFail_postFails, Bool.false_eq_true, if_false]
  rw [streamLoop_noFail_err]
  simp [accText_empty, lastUsage]

theorem filter_terminal_tokens (chunks : List Chunk) :
    ((chunks.map fun c => OutboundEvent.token (chunkText c)).filter
      isTerminal) = [] := by
  induction chunks with
  | nil => rfl
  | cons c rest ih => simp [isTerminal, ih]

theorem errorPath_raised_none (env : TraceEnv) (q : String)
    (events : List OutboundEvent) (trace : List TraceCall) (full : String)
    (toks : Nat × Nat) (msg : String) (h2 : env.endErrorFails = false)
    (h3 : env.patchErrorFails = false) :
    (errorPath env q events trace full toks msg).raised = none := by
  simp [errorPath, h2, h3]

theorem streamLoop_raised_none (env : TraceEnv) (q : String)
    (failure : Option String) (h2 : env.endErrorFails = false)
    (h3 : env.patchErrorFails = false) :
    ∀ (chunks : List Chunk) (events : List OutboundEvent)
      (trace : List TraceCall) (full : String) (toks : Nat × Nat) (fs : Bool),
    (streamLoop env q failure chunks events trace full toks fs).raised =
      none := by
  intro chunks
  induction chunks with
  | nil =>
    intro events trace full toks fs
    simp only [streamLoop]
    repeat' split
    all_goals
      first
      | exact errorPath_raised_none env q _ _ _ _ _ h2 h3
      | rfl
  | cons c rest ih =>
    intro events trace full toks fs
    simp only [streamLoop]
    split
    · exact errorPath_raised_none env q _ _ _ _ _ h2 h3
    · exact ih _ _ _ _ _

theorem generate_upstreamPrompt_noFail (q : String) (up : Upstream) :
    (generate q up TraceEnv.noFail).upstreamPrompt = some q := by
  obtain ⟨chunks, failure⟩ := up
  cases failure with
  | none => rw [generate_noFail_ok]
  | some msg => rw [generate_noFail_err]

theorem foldl_updTokens_no_usage :
    ∀ (chunks : List Chunk) (acc : Nat × Nat),
    (∀ c ∈ chunks, c.usage_metadata = none) →
    chunks.foldl updTokens acc = acc := by
  intro chunks
  induction chunks with
  | nil => intro acc _; rfl
  | cons c rest ih =>
    intro acc h
    rw [List.foldl_cons,
      show updTokens acc c = acc from by
        simp [updTokens, h c (List.mem_cons_self c rest)]]
    exact ih acc fun x hx => h x (List.mem_cons_of_mem c hx)

/-- C1 (amended): in every invocation of the `/ask` streaming handler in
which no trace-recorder call fails, the produced event sequence contains
exactly one terminal event (`done` or `error`), it is the last event, and
the accumulated full-output buffer and token totals at finalization reflect
exactly the chunks consumed strictly before any upstream failure. -/
theorem C1_exactly_one_terminal_when_trace_ok (q : String)
    (chunks : List Chunk) (failure : Option String) :
    ((generate q ⟨chunks, failure⟩ TraceEnv.noFail).events.filter
      isTerminal).length = 1 ∧
    (∃ e, (generate q ⟨chunks, failure⟩ TraceEnv.noFail).events.getLast? =
      some e ∧ isTerminal e = true) ∧
    (generate q ⟨chunks, failure⟩ TraceEnv.noFail).full_content =
      joinTexts chunks ∧
    (generate q ⟨chunks, failure⟩ TraceEnv.noFail).input_tokens =
      (lastUsage chunks).1 ∧
    (generate q ⟨chunks, failure⟩ TraceEnv.noFail).output_tokens =
      (lastUsage chunks).2 := by
  cases failure with
  | none =>
    rw [generate_noFail_ok]
    refine ⟨?_, ⟨OutboundEvent.done, ?_, rfl⟩, rfl, rfl, rfl⟩
    · simp [List.filter_append, filter_terminal_tokens, isTerminal]
    · simp
  | some msg =>
    rw [generate_noFail_err]
    refine ⟨?_, ⟨OutboundEvent.error, ?_, rfl⟩, rfl, rfl, rfl⟩
    · simp [List.filter_append, filter_terminal_tokens, isTerminal]
    · simp

/-- C1 counterexample: with an upstream that completes cleanly but a
success-path `rt.end` call that raises — after `data: [DONE]\n\n` was
already yielded, and still inside the `try` — the `except` handler runs and
also yields `data: [ERROR]\n\n`: the handler emits BOTH terminal events, so
the invocation does not contain exactly one terminal event and `done` is not
the last event. -/
theorem C1_counterexample :
    (generate "q" ⟨[], none⟩ envEndSuccessFails).events =
      [OutboundEvent.done, OutboundEvent.error] ∧
    ((generate "q" ⟨[], none⟩ envEndSuccessFails).events.filter
      isTerminal).length ≠ 1 := by decide

/-- C2 (amended): when no trace-recorder call fails, for every input and
every upstream sequence raising after k chunks the handler emits exactly the
k token events (in order, with the chunk texts) followed by exactly one
error event and no done event, and no exception escapes the generator to the
transport layer. -/
theorem C2_upstream_error_stream (q msg : String) (chunks : List Chunk) :
    (generate q ⟨chunks, some msg⟩ TraceEnv.noFail).events =
      chunks.map (fun c => OutboundEvent.token (chunkText c)) ++
        [OutboundEvent.error] ∧
    OutboundEvent.done ∉
      (generate q ⟨chunks, some msg⟩ TraceEnv.noFail).events ∧
    (generate q ⟨chunks, some msg⟩ TraceEnv.noFail).raised = none := by
  rw [generate_noFail_err]
  refine ⟨rfl, ?_, rfl⟩
  simp

/-- C2 counterexample: when the upstream raises before its first chunk and
the `rt.end(error=...)` call in the `except` block itself raises, the
handler emits no error event at all and the new exception escapes the
generator: the connection is terminated through the transport layer without
the `[ERROR]` sentinel ever being emitted. -/
theorem C2_counterexample :
    (generate "q" ⟨[], some "boom"⟩ envEndErrorFails).events = [] ∧
    (generate "q" ⟨[], some "boom"⟩ envEndErrorFails).raised =
      some "trace_end_raised_in_except_block" := by decide

/-- C3 (amended): a request whose `question` attribute is absent fails
validation before the handler body runs and the upstream client is never
invoked; but a request whose `question` is the empty string passes
validation (`question : str` has no emptiness constraint) and the upstream
client IS invoked with the empty prompt. -/
theorem C3_validation_behavior (up : Upstream) (env : TraceEnv) (q : String) :
    handleAsk ReqBody.missingQuestion up env =
      Except.error "validation_error" ∧
    upstreamInvokedWith (handleAsk ReqBody.missingQuestion up env) = none ∧
    upstreamInvokedWith
      (handleAsk (ReqBody.withQuestion q) up TraceEnv.noFail) = some q := by
  refine ⟨rfl, rfl, ?_⟩
  simp [handleAsk, validateQuestion, upstreamInvokedWith,
    generate_upstreamPrompt_noFail]

/-- C3 counterexample: for the request with `question = ""` the handler does
NOT fail fast: validation accepts the empty string and the upstream client's
streaming capability is invoked with the empty prompt. -/
theorem C3_counterexample :
    upstreamInvokedWith
      (handleAsk (ReqBody.withQuestion "") ⟨[], none⟩ TraceEnv.noFail) =
      some "" := by decide

/-- C4 (amended): only the trace-recorder calls made inside the `try` block
(the first-token marker and the success-path `rt.end`/`rt.patch`) are
shielded from the caller: if `rt.post()` and the `except`-block
`rt.end`/`rt.patch` do not fail, no trace-recorder failure raises out of the
generator.  A trace failure is not fully transparent, however: it diverts
the stream to the error path (see `C4_counterexample` for `rt.post()`, which
is not shielded at all). -/
theorem C4_try_block_trace_failures_swallowed (q : String) (up : Upstream)
    (env : TraceEnv) (h1 : env.postFails = false)
    (h2 : env.endErrorFails = false) (h3 : env.patchErrorFails = false) :
    (generate q up env).raised = none := by
  rw [generate]
  simp only [h1, Bool.false_eq_true, if_false]
  exact streamLoop_raised_none env q up.failure h2 h3 up.chunks _ _ _ _ _

/-- C4 counterexample: `rt.post()` runs before the `try` block, so when the
trace recorder fails at trace start the failure is NOT swallowed: the
exception escapes the generator and the outbound event sequence (empty) is
not the sequence delivered when the trace recorder works (a lone `done`). -/
theorem C4_counterexample :
    (generate "q" ⟨[], none⟩ envPostFails).events ≠
      (generate "q" ⟨[], none⟩ TraceEnv.noFail).events ∧
    (generate "q" ⟨[], none⟩ envPostFails).raised =
      some "trace_post_raised" := by decide

theorem C4_witness :
    (envTryBlockFails.postFails = false ∧
     envTryBlockFails.endErrorFails = false ∧
     envTryBlockFails.patchErrorFails = false) ∧
    (generate "q" ⟨[⟨some "x", none⟩], none⟩ envTryBlockFails).raised =
      none :=
  ⟨⟨rfl, rfl, rfl⟩,
   C4_try_block_trace_failures_swallowed "q" ⟨[⟨some "x", none⟩], none⟩
     envTryBlockFails rfl rfl rfl⟩

/-- C5: for every non-empty question and every upstream sequence of N chunks
completing without error (and the trace recorder behaving), the handler
emits exactly the N token events, in upstream order, each carrying exactly
that chunk's text fragment, followed by exactly one done event. -/
theorem C5_success_token_stream (q : String) (chunks : List Chunk)
    (h : q ≠ "") :
    (generate q ⟨chunks, none⟩ TraceEnv.noFail).events =
      chunks.map (fun c => OutboundEvent.token (chunkText c)) ++
        [OutboundEvent.done] := by
  rw [generate_noFail_ok]

theorem C5_witness :
    (generate "ping"
      ⟨[⟨some "P", none⟩, ⟨some "i", none⟩, ⟨some "ng", none⟩], none⟩
      TraceEnv.noFail).events =
      [OutboundEvent.token "P", OutboundEvent.token "i",
       OutboundEvent.token "ng", OutboundEvent.done] := by
  rw [C5_success_token_stream "ping"
    [⟨some "P", none⟩, ⟨some "i", none⟩, ⟨some "ng", none⟩] (by decide)]
  decide

/-- C6: on success, the token totals finalized in the trace equal the usage
values of the last usage-bearing chunk (each usage-bearing chunk overwrites
the running totals — never a sum across chunks), the finalized total equals
input plus output tokens, and if no chunk carried usage both totals are
zero. -/
theorem C6_finalized_token_totals (q : String) (chunks : List Chunk) :
    finalizedSuccess (generate q ⟨chunks, none⟩ TraceEnv.noFail).trace =
      some (joinTexts chunks, (lastUsage chunks).1, (lastUsage chunks).2,
        (lastUsage chunks).1 + (lastUsage chunks).2) ∧
    ((∀ c ∈ chunks, c.usage_metadata = none) →
      lastUsage chunks = (0, 0)) := by
  constructor
  · rw [generate_noFail_ok]
    by_cases hc : chunks.isEmpty <;>
      simp [markerOf, hc, finalizedSuccess]
  · intro h
    exact foldl_updTokens_no_usage chunks (0, 0) h

theorem C6_witness :
    finalizedSuccess
      (generate "q" ⟨[⟨some "a", none⟩], none⟩ TraceEnv.noFail).trace =
      some (joinTexts [⟨some "a", none⟩], 0, 0, 0) ∧
    lastUsage [⟨some "a", none⟩] = (0, 0) :=
  ⟨(C6_finalized_token_totals "q" [⟨some "a", none⟩]).1,
   (C6_finalized_token_totals "q" [⟨some "a", none⟩]).2 (by decide)⟩

/-- C7: the `new_token` first-chunk marker is recorded in the trace exactly
once whenever the upstream produces at least one chunk — regardless of the
chunk's content, and no matter how many chunks follow or whether the
upstream later fails — and never when no chunk arrives. -/
theorem C7_first_token_marker_once (q : String) (up : Upstream) :
    ((generate q up TraceEnv.noFail).trace.filter
      isFirstTokenMarker).length =
      if up.chunks.isEmpty then 0 else 1 := by
  obtain ⟨chunks, failure⟩ := up
  cases failure with
  | none =>
    rw [generate_noFail_ok]
    by_cases hc : chunks.isEmpty <;>
      simp [markerOf, hc, isFirstTokenMarker, List.filter_append]
  | some msg =>
    rw [generate_noFail_err]
    by_cases hc : chunks.isEmpty <;>
      simp [markerOf, hc, isFirstTokenMarker, List.filter_append]

/-- C8: each chunk's fragment — including the empty fragment — is appended
to the full-output buffer and emitted as one token event whose rendered
frame is exactly `data: ` ++ fragment ++ `\n\n` (an empty fragment renders
as `data: \n\n`); the done event renders exactly as `data: [DONE]\n\n` and
the error event exactly as `data: [ERROR]\n\n`. -/
theorem C8_frame_encoding (q : String) (chunks : List Chunk) :
    (generate q ⟨chunks, none⟩ TraceEnv.noFail).events.map render =
      chunks.map (fun c => "data: " ++ chunkText c ++ "\n\n") ++
        ["data: [DONE]\n\n"] ∧
    (generate q ⟨chunks, none⟩ TraceEnv.noFail).full_content =
      joinTexts chunks ∧
    render (OutboundEvent.token "") = "data: \n\n" ∧
    render OutboundEvent.done = "data: [DONE]\n\n" ∧
    render OutboundEvent.error = "data: [ERROR]\n\n" := by
  refine ⟨?_, ?_, by decide, rfl, rfl⟩
  · rw [generate_noFail_ok]
    simp [render]
  · rw [generate_noFail_ok]

/-- C9: the concatenated frame encoding of the outbound stream is not
injective in the chunk texts: a single chunk whose text contains
`\n\ndata: ` produces the same byte stream as two separate chunks, so a
consumer of the bytes cannot recover the chunk boundaries. -/
theorem C9_frame_encoding_not_injective :
    String.join ((generate "q" ⟨[⟨some "a\n\ndata: b", none⟩], none⟩
        TraceEnv.noFail).events.map render) =
      String.join ((generate "q"
        ⟨[⟨some "a", none⟩, ⟨some "b", none⟩], none⟩
        TraceEnv.noFail).events.map render) ∧
    List.map chunkText [⟨some "a\n\ndata: b", none⟩] ≠
      List.map chunkText [⟨some "a", none⟩, ⟨some "b", none⟩] := by decide

/-- C10: the handler is deterministic in its modelled inputs: for a fixed
question and a fixed upstream chunk sequence, with trace-recorder calls not
raising, two runs produce identical outbound events, trace calls,
accumulated output and token totals (the run result is a function of the
question and the upstream behaviour alone; no other ambient state occurs in
the model). -/
theorem C10_deterministic (q1 q2 : String) (up1 up2 : Upstream)
    (hq : q1 = q2) (hu : up1 = up2) :
    generate q1 up1 TraceEnv.noFail = generate q2 up2 TraceEnv.noFail := by
  rw [hq, hu]

theorem C10_witness :
    ("hi" = "hi" ∧
      (⟨[⟨some "x", some ⟨3, 5⟩⟩], none⟩ : Upstream) =
        ⟨[⟨some "x", some ⟨3, 5⟩⟩], none⟩) ∧
    generate "hi" ⟨[⟨some "x", some ⟨3, 5⟩⟩], none⟩ TraceEnv.noFail =
      generate "hi" ⟨[⟨some "x", some ⟨3, 5⟩⟩], none⟩ TraceEnv.noFail :=
  ⟨⟨rfl, rfl⟩, C10_deterministic "hi" "hi" _ _ rfl rfl⟩

end AskApp
